import Mathlib

/-!
A shallow embedding of the anki-mcp server (src/server.py) sufficient to
verify its similarity-search and batch-mutation subsystem.

External collaborators (the AnkiConnect record store and the OpenAI
embedding provider) are modelled as explicit inputs: each HTTP exchange is
represented by its status code, its optional application-level error field,
and its result payload.  The per-candidate embedding-plus-cosine step of
the search is modelled as an oracle of type String to Option Rat: the text
handed to the embedding call maps to the cosine similarity against the
query, with none standing for an exception raised by the embedding call
(which the source catches and turns into a silent skip).  Floating point
similarity scores are modelled as rationals.
-/

/-- Whitespace characters stripped by the Python str.strip method
(restricted to the ASCII whitespace set). -/
def isPySpace (c : Char) : Bool :=
  (c == ' ') || (c == '\t') || (c == '\n') || (c == '\r') || (c == '\x0b') || (c == '\x0c')

/-- Model of the Python str.strip method: drop leading and trailing
whitespace characters. -/
def pyStrip (s : String) : String :=
  ⟨((s.data.dropWhile isPySpace).reverse.dropWhile isPySpace).reverse⟩

/-- The string contains at least one non-whitespace character, i.e. the
Python expression bool(s.strip()) is True. -/
def hasContent (s : String) : Bool :=
  s.data.any (fun c => !isPySpace c)

/-- One note as returned by the notesInfo action of the record store:
identifier, model name, tags, and the ordered field-name-to-value mapping
(Python dict order, which for notesInfo is the schema field order). -/
structure NoteInfo where
  noteId : Nat
  modelName : String
  tags : List String
  fields : List (String × String)
deriving DecidableEq

/-- Source line 857: combined_text is the join with a single space of the
field values (names discarded, schema order kept) whose value is truthy
after str.strip. -/
def combinedText (fields : List (String × String)) : String :=
  String.intercalate " " ((fields.map Prod.snd).filter (fun v => pyStrip v ≠ ""))

/-- One entry of the similarities list built at source lines 854-877. -/
structure SimEntry where
  note : NoteInfo
  similarity : ℚ
  combined_text : String
deriving DecidableEq

/-- The body of the per-note loop at source lines 855-877: skip a note
whose combined text is falsy after strip, skip a note whose embedding call
raises, and keep a scored entry exactly when the similarity is at least
the threshold. -/
def processNote (score : String → Option ℚ) (threshold : ℚ) (note : NoteInfo) :
    Option SimEntry :=
  if pyStrip (combinedText note.fields) = "" then none
  else
    match score (combinedText note.fields) with
    | none => none
    | some sim =>
      if threshold ≤ sim then some ⟨note, sim, combinedText note.fields⟩ else none

/-- The similarities list accumulated by the loop at source lines 854-877,
in note order. -/
def buildSimilarities (score : String → Option ℚ) (threshold : ℚ)
    (notes : List NoteInfo) : List SimEntry :=
  notes.filterMap (processNote score threshold)

/-- The texts on which the per-candidate embedding call is invoked, in
iteration order: one call per note whose combined text survives the strip
check at source line 862. -/
def embedCalls : List NoteInfo → List String
  | [] => []
  | n :: ns =>
    if pyStrip (combinedText n.fields) = "" then embedCalls ns
    else combinedText n.fields :: embedCalls ns

/-- Stable descending insertion: x is placed before the first element
whose similarity is at most that of x.  Used to give semantics to the
stable descending sort of source line 880. -/
def insertDesc (x : SimEntry) : List SimEntry → List SimEntry
  | [] => [x]
  | y :: ys => if y.similarity ≤ x.similarity then x :: y :: ys else y :: insertDesc x ys

/-- Semantics of source line 880, similarities.sort(key score, reverse):
a stable sort, descending by similarity, ties kept in original order. -/
def sortDesc (l : List SimEntry) : List SimEntry :=
  l.foldr insertDesc []

/-- The external interactions consumed by one find_similar_notes call:
the OPENAI_API_KEY environment variable, the findNotes exchange, the
notesInfo exchange, whether the query embedding call succeeded, and the
per-candidate scoring oracle. -/
structure SearchEnv where
  apiKey : Option String
  findNotesStatus : Nat
  findNotesError : Option String
  findNotesResult : List Nat
  notesInfoStatus : Nat
  notesInfoError : Option String
  notesInfoResult : List NoteInfo
  queryEmbedOk : Bool
  score : String → Option ℚ

/-- Result of find_similar_notes: err carries the error string of a
result dict with success False; ok carries found_count and the truncated
similarities list of a dict with success True. -/
inductive FsnResult where
  | err (msg : String)
  | ok (found_count : Nat) (results : List SimEntry)
deriving DecidableEq

/-- The guard sequence of find_similar_notes (source lines 802-851): the
first failing check produces the error string of the returned dict, in
source order. -/
def searchError (env : SearchEnv) (deck_name : String) : Option String :=
  match env.apiKey with
  | none => some "OpenAI API key not found. Please set OPENAI_API_KEY environment variable."
  | some _ =>
    if env.findNotesStatus ≠ 200 then
      some ("Failed to connect to Anki: " ++ toString env.findNotesStatus)
    else
      match env.findNotesError with
      | some e => some e
      | none =>
        if env.findNotesResult.isEmpty then
          some ("No notes found in deck " ++ deck_name)
        else if env.notesInfoStatus ≠ 200 then
          some ("Failed to connect to Anki: " ++ toString env.notesInfoStatus)
        else
          match env.notesInfoError with
          | some e => some e
          | none =>
            if env.queryEmbedOk then none
            else some "Failed to find similar notes: embedding error"

/-- find_similar_notes (source lines 793-921): run the guards; on the
happy path score every note, keep those at or above the threshold, sort
stably descending and truncate to max_results; found_count is the length
of the truncated list (0 with an empty list when nothing clears the
threshold, still a success). -/
def find_similar_notes (env : SearchEnv) (deck_name : String)
    (similarity_threshold : ℚ) (max_results : Nat) : FsnResult :=
  match searchError env deck_name with
  | some e => .err e
  | none =>
    let sims :=
      (sortDesc (buildSimilarities env.score similarity_threshold env.notesInfoResult)).take
        max_results
    .ok sims.length sims

/-! ## Batch creation: create_notes_bulk (source lines 593-646) -/

/-- One element of the notes_list argument: either not a dict at all, or a
dict whose model_name, fields and tags keys may each be present or
absent. -/
inductive RawNote where
  | notDict
  | dict (model_name : Option String) (fields : Option (List (String × String)))
      (tags : Option (List String))
deriving DecidableEq

/-- One element of the notes parameter sent to the addNotes action
(source lines 611-616). -/
structure AnkiNote where
  deckName : String
  modelName : String
  fields : List (String × String)
  tags : List String
deriving DecidableEq

/-- The validation loop at source lines 603-617, started at item index i:
the first item that is not a dict, or is missing model_name or fields,
aborts the whole call with an error naming that item; otherwise the full
list of store payloads is produced. -/
def buildAnkiNotes (deck_name : String) : List RawNote → Nat → Except String (List AnkiNote)
  | [], _ => .ok []
  | .notDict :: _, i => .error ("Note " ++ toString (i + 1) ++ " is not a dictionary")
  | .dict mn fs ts :: rest, i =>
    match mn, fs with
    | some m, some f =>
      match buildAnkiNotes deck_name rest (i + 1) with
      | .error e => .error e
      | .ok ns => .ok (⟨deck_name, m, f, ts.getD []⟩ :: ns)
    | _, _ => .error ("Note " ++ toString (i + 1) ++ " missing required model_name or fields")

/-- Result of create_notes_bulk: err carries the error string of a dict
with success False; ok carries total_attempted, successful_count,
failed_count and the note_ids list echoed from the store response. -/
inductive BulkCreateResult where
  | err (msg : String)
  | ok (total_attempted successful_count failed_count : Nat) (note_ids : List (Option Nat))
deriving DecidableEq

/-- Whether a create_notes_bulk result is an error dict (success False). -/
def BulkCreateResult.isErr : BulkCreateResult → Bool
  | .err _ => true
  | .ok _ _ _ _ => false

/-- create_notes_bulk (source lines 593-646).  The addNotes exchange with
the store is modelled by addStatus, addError and addResult (the list of
identifier-or-null, positionally aligned with the input).  An empty
notes_list and any validation failure return an error dict before the
store is contacted; on a successful store call the per-item identifiers
are counted: non-null is a success, null a failure. -/
def create_notes_bulk (deck_name : String) (notes_list : List RawNote)
    (addStatus : Nat) (addError : Option String) (addResult : List (Option Nat)) :
    BulkCreateResult :=
  if notes_list.isEmpty then .err "No notes provided"
  else
    match buildAnkiNotes deck_name notes_list 0 with
    | .error e => .err e
    | .ok _ =>
      if addStatus ≠ 200 then .err ("Failed to connect to Anki: " ++ toString addStatus)
      else
        match addError with
        | some e => .err e
        | none =>
          .ok notes_list.length (addResult.filter Option.isSome).length
            (addResult.filter Option.isNone).length addResult

/-! ## Single-note update: update_note (source lines 262-335) -/

/-- The current state of the note being updated, as returned by the
notesInfo action: its ordered fields and its tags. -/
structure CurrentNote where
  fields : List (String × String)
  tags : List String
deriving DecidableEq

/-- The note payload sent to the updateNoteFields action
(source lines 302-312). -/
structure SentNote where
  id : Nat
  fields : List (String × String)
  tags : List String
deriving DecidableEq

/-- Python dict assignment d[k] = v on an ordered association list: if the
key is present its value is replaced in place, otherwise the pair is
appended. -/
def dictInsert (d : List (String × String)) (k v : String) : List (String × String) :=
  if d.any (fun p => p.1 == k) then d.map (fun p => if p.1 == k then (k, v) else p)
  else d ++ [(k, v)]

/-- The merge at source lines 293-300: start from the full current field
mapping and overlay each caller-supplied field in turn. -/
def mergeFields (current newFields : List (String × String)) : List (String × String) :=
  newFields.foldl (fun d p => dictInsert d p.1 p.2) current

/-- Result of update_note: err carries the error string of a dict with
success False; ok carries the note payload sent to the store and the
updated_fields list of the returned dict. -/
inductive UpdateResult where
  | err (msg : String)
  | ok (sent : SentNote) (updated_fields : List String)
deriving DecidableEq

/-- update_note (source lines 262-335).  The notesInfo exchange is
modelled by niStatus, niError and niResult (a list of optional notes, the
first of which is the requested note when found); the updateNoteFields
exchange by updStatus and updError.  On success the sent payload holds
the merged fields, and the caller tags when supplied, else the current
tags. -/
def update_note (note_id : Nat) (fields : List (String × String))
    (tags : Option (List String)) (niStatus : Nat) (niError : Option String)
    (niResult : List (Option CurrentNote)) (updStatus : Nat) (updError : Option String) :
    UpdateResult :=
  if niStatus ≠ 200 then .err ("Failed to connect to Anki: " ++ toString niStatus)
  else
    match niError with
    | some e => .err e
    | none =>
      match niResult.head? with
      | some (some current) =>
        if updStatus ≠ 200 then .err ("Failed to connect to Anki: " ++ toString updStatus)
        else
          match updError with
          | some e => .err e
          | none =>
            .ok ⟨note_id, mergeFields current.fields fields, tags.getD current.tags⟩
              (fields.map Prod.fst)
      | _ => .err ("Note with ID " ++ toString note_id ++ " not found")

/-! ## Batch update: update_notes_bulk (source lines 727-791)

The loop applies update_note to each well-formed item; each such
application is its own pair of store exchanges.  The varying store
behaviour across the batch is modelled by an apply oracle taking the item
index and the item payload and returning the recorded outcome of that
application: ok with the updated_fields of a success dict, or fail with
the error text (covering both an error dict and a raised exception, which
the source records identically as a failure entry). -/

/-- One element of the updates argument: either not a dict, or a dict
whose note_id, fields and tags keys may each be present or absent. -/
inductive RawUpdate where
  | notDict
  | dict (note_id : Option Nat) (fields : Option (List (String × String)))
      (tags : Option (List String))
deriving DecidableEq

/-- The recorded outcome of one update_note application inside the
loop. -/
inductive ApplyOutcome where
  | ok (updated_fields : List String)
  | fail (error : String)
deriving DecidableEq

/-- One entry of the successful_updates list (source lines 764-767). -/
structure UpdSuccess where
  note_id : Nat
  updated_fields : List String
deriving DecidableEq

/-- One entry of the failed_updates list (source lines 740-781):
original index, note_id when known, error text, and the offending input
payload. -/
structure UpdFailure where
  index : Nat
  note_id : Option Nat
  error : String
  data : RawUpdate
deriving DecidableEq

/-- Outcome recorded for a single batch item. -/
inductive ItemOutcome where
  | succ (s : UpdSuccess)
  | fail (f : UpdFailure)
deriving DecidableEq

/-- The body of the loop at source lines 738-781 for the item at index i:
a non-dict or an item missing note_id or fields is recorded as a failure
without applying it; otherwise the outcome of the application is
recorded. -/
def itemOutcome (apply : Nat → Nat → List (String × String) → Option (List String) → ApplyOutcome)
    (i : Nat) (u : RawUpdate) : ItemOutcome :=
  match u with
  | .notDict => .fail ⟨i, none, "Update data is not a dictionary", u⟩
  | .dict id? fs? ts? =>
    match id?, fs? with
    | some id, some fs =>
      match apply i id fs ts? with
      | .ok ufs => .succ ⟨id, ufs⟩
      | .fail e => .fail ⟨i, some id, e, u⟩
    | _, _ => .fail ⟨i, id?, "Missing required note_id or fields", u⟩

/-- The ordered list of per-item outcomes of the loop, starting at index
i0. -/
def outcomes (apply : Nat → Nat → List (String × String) → Option (List String) → ApplyOutcome) :
    List RawUpdate → Nat → List ItemOutcome
  | [], _ => []
  | u :: rest, i0 => itemOutcome apply i0 u :: outcomes apply rest (i0 + 1)

/-- Projection of an outcome onto the successful_updates list. -/
def succPart : ItemOutcome → Option UpdSuccess
  | .succ s => some s
  | .fail _ => none

/-- Projection of an outcome onto the failed_updates list. -/
def failPart : ItemOutcome → Option UpdFailure
  | .succ _ => none
  | .fail f => some f

/-- Result of update_notes_bulk: err carries the error string of a dict
with success False; ok carries total_attempted, successful_count,
failed_count, successful_updates and failed_updates. -/
inductive BulkUpdateResult where
  | err (msg : String)
  | ok (total_attempted successful_count failed_count : Nat)
      (successful_updates : List UpdSuccess) (failed_updates : List UpdFailure)
deriving DecidableEq

/-- update_notes_bulk (source lines 727-791): an empty updates list is an
error dict; otherwise every item is processed in order, the successes and
failures are collected into two ordered lists, and the returned counts
are the lengths of those lists together with the input length. -/
def update_notes_bulk (updates : List RawUpdate)
    (apply : Nat → Nat → List (String × String) → Option (List String) → ApplyOutcome) :
    BulkUpdateResult :=
  if updates.isEmpty then .err "No updates provided"
  else
    .ok updates.length ((outcomes apply updates 0).filterMap succPart).length
      ((outcomes apply updates 0).filterMap failPart).length
      ((outcomes apply updates 0).filterMap succPart)
      ((outcomes apply updates 0).filterMap failPart)

/-! ## Lemmas about stripping and flattening -/

theorem forall_mem_dropWhile {p : Char → Bool} {l : List Char}
    (h : ∀ x ∈ l.dropWhile p, p x = true) : ∀ x ∈ l, p x = true := by
  induction l with
  | nil => intro x hx; cases hx
  | cons a l ih =>
    rw [List.dropWhile_cons] at h
    by_cases ha : p a = true
    · rw [if_pos ha] at h
      intro x hx
      cases hx with
      | head => exact ha
      | tail _ hx => exact ih h x hx
    · rw [if_neg ha] at h
      exact h

theorem pyStrip_eq_empty_iff (s : String) :
    pyStrip s = "" ↔ ∀ c ∈ s.data, isPySpace c = true := by
  rw [String.ext_iff]
  show ((s.data.dropWhile isPySpace).reverse.dropWhile isPySpace).reverse = [] ↔ _
  rw [List.reverse_eq_nil_iff, List.dropWhile_eq_nil_iff]
  constructor
  · intro h
    apply forall_mem_dropWhile
    intro x hx
    exact h x (List.mem_reverse.mpr hx)
  · intro h x hx
    exact h x (List.dropWhile_sublist isPySpace |>.subset (List.mem_reverse.mp hx))

theorem pyStrip_ne_empty_iff (s : String) : pyStrip s ≠ "" ↔ hasContent s = true := by
  rw [Ne, pyStrip_eq_empty_iff]
  unfold hasContent
  rw [List.any_eq_true]
  push_neg
  constructor
  · rintro ⟨c, hc, hcs⟩
    exact ⟨c, hc, by simp [hcs]⟩
  · rintro ⟨c, hc, hcs⟩
    exact ⟨c, hc, by simpa using hcs⟩

theorem stripFilter_eq_hasContent (v : String) :
    (decide (pyStrip v ≠ "")) = hasContent v := by
  cases hcv : hasContent v with
  | true => exact decide_eq_true ((pyStrip_ne_empty_iff v).mpr hcv)
  | false =>
    refine decide_eq_false fun hne => ?_
    have hc := (pyStrip_ne_empty_iff v).mp hne
    rw [hc] at hcv
    exact Bool.noConfusion hcv

theorem combinedText_eq (fields : List (String × String)) :
    combinedText fields =
      String.intercalate " " ((fields.map Prod.snd).filter hasContent) := by
  unfold combinedText
  congr 1
  exact List.filter_congr (fun v _ => stripFilter_eq_hasContent v)

/-! ## Lemmas about the per-note loop -/

theorem processNote_eq_some {score : String → Option ℚ} {th : ℚ} {n : NoteInfo}
    {e : SimEntry} (h : processNote score th n = some e) :
    th ≤ e.similarity ∧ e.note = n ∧ e.combined_text = combinedText n.fields ∧
      pyStrip e.combined_text ≠ "" := by
  unfold processNote at h
  split at h
  · exact absurd h (by simp)
  · rename_i hne
    split at h
    · exact absurd h (by simp)
    · rename_i sim hsc
      split at h
      · rename_i hth
        injection h with h1
        subst h1
        exact ⟨hth, rfl, rfl, hne⟩
      · exact absurd h (by simp)

theorem mem_buildSimilarities {score : String → Option ℚ} {th : ℚ}
    {notes : List NoteInfo} {e : SimEntry} :
    e ∈ buildSimilarities score th notes ↔
      ∃ n ∈ notes, processNote score th n = some e := by
  unfold buildSimilarities
  exact List.mem_filterMap

theorem mem_embedCalls_hasContent {notes : List NoteInfo} {s : String}
    (h : s ∈ embedCalls notes) : hasContent s = true := by
  induction notes with
  | nil => cases h
  | cons n ns ih =>
    unfold embedCalls at h
    split at h
    · exact ih h
    · rename_i hne
      cases h with
      | head => exact (pyStrip_ne_empty_iff _).mp hne
      | tail _ h => exact ih h

theorem buildSimilarities_congr {notes : List NoteInfo} {th : ℚ}
    {s1 s2 : String → Option ℚ} (h : ∀ s ∈ embedCalls notes, s1 s = s2 s) :
    buildSimilarities s1 th notes = buildSimilarities s2 th notes := by
  induction notes with
  | nil => rfl
  | cons n ns ih =>
    unfold buildSimilarities at ih ⊢
    rw [List.filterMap_cons, List.filterMap_cons]
    have hproc : processNote s1 th n = processNote s2 th n := by
      unfold processNote
      split
      · rfl
      · rename_i hne
        have hmem : combinedText n.fields ∈ embedCalls (n :: ns) := by
          unfold embedCalls
          rw [if_neg hne]
          exact List.mem_cons_self _ _
        rw [h _ hmem]
    have htail : ∀ s ∈ embedCalls ns, s1 s = s2 s := by
      intro s hs
      apply h
      unfold embedCalls
      split
      · exact hs
      · exact List.mem_cons_of_mem _ hs
    rw [hproc, ih htail]

/-! ## Lemmas about the stable descending sort -/

theorem mem_insertDesc {x z : SimEntry} {l : List SimEntry} :
    z ∈ insertDesc x l ↔ z = x ∨ z ∈ l := by
  induction l with
  | nil => simp [insertDesc]
  | cons y ys ih =>
    unfold insertDesc
    split
    · simp [List.mem_cons]
    · rw [List.mem_cons, ih, List.mem_cons]
      tauto

theorem length_insertDesc (x : SimEntry) (l : List SimEntry) :
    (insertDesc x l).length = l.length + 1 := by
  induction l with
  | nil => rfl
  | cons y ys ih =>
    unfold insertDesc
    split
    · rfl
    · simp [ih]

theorem pairwise_insertDesc (x : SimEntry) (l : List SimEntry)
    (h : l.Pairwise (fun a b => b.similarity ≤ a.similarity)) :
    (insertDesc x l).Pairwise (fun a b => b.similarity ≤ a.similarity) := by
  induction l with
  | nil => simp [insertDesc]
  | cons y ys ih =>
    rw [List.pairwise_cons] at h
    obtain ⟨hy, hys⟩ := h
    unfold insertDesc
    split
    · rename_i hyx
      rw [List.pairwise_cons]
      refine ⟨fun z hz => ?_, List.pairwise_cons.mpr ⟨hy, hys⟩⟩
      rcases List.mem_cons.mp hz with rfl | hz
      · exact hyx
      · exact le_trans (hy z hz) hyx
    · rename_i hyx
      rw [List.pairwise_cons]
      refine ⟨fun z hz => ?_, ih hys⟩
      rcases mem_insertDesc.mp hz with rfl | hz
      · exact (not_le.mp hyx).le
      · exact hy z hz

theorem sortDesc_pairwise (l : List SimEntry) :
    (sortDesc l).Pairwise (fun a b => b.similarity ≤ a.similarity) := by
  induction l with
  | nil => exact List.Pairwise.nil
  | cons x xs ih => exact pairwise_insertDesc x (sortDesc xs) ih

theorem length_sortDesc (l : List SimEntry) : (sortDesc l).length = l.length := by
  induction l with
  | nil => rfl
  | cons x xs ih =>
    show (insertDesc x (sortDesc xs)).length = xs.length + 1
    rw [length_insertDesc, ih]

theorem filter_insertDesc (x : SimEntry) (l : List SimEntry) (q : ℚ) :
    (insertDesc x l).filter (fun e => e.similarity = q) =
      if x.similarity = q then x :: l.filter (fun e => e.similarity = q)
      else l.filter (fun e => e.similarity = q) := by
  induction l with
  | nil => by_cases hx : x.similarity = q <;> simp [insertDesc, hx]
  | cons y ys ih =>
    unfold insertDesc
    split
    · rename_i hyx
      by_cases hx : x.similarity = q <;> simp [List.filter_cons, hx]
    · rename_i hyx
      have hlt : x.similarity < y.similarity := not_le.mp hyx
      by_cases hx : x.similarity = q
      · have hy : ¬ y.similarity = q := ne_of_gt (hx ▸ hlt)
        simp [List.filter_cons, hy, ih, hx]
      · simp only [List.filter_cons, ih, if_neg hx]

theorem sortDesc_filter (l : List SimEntry) (q : ℚ) :
    (sortDesc l).filter (fun e => e.similarity = q) =
      l.filter (fun e => e.similarity = q) := by
  induction l with
  | nil => rfl
  | cons x xs ih =>
    show (insertDesc x (sortDesc xs)).filter _ = _
    rw [filter_insertDesc]
    by_cases hx : x.similarity = q <;> simp [List.filter_cons, hx, ih]

theorem mem_sortDesc {z : SimEntry} {l : List SimEntry} : z ∈ sortDesc l ↔ z ∈ l := by
  induction l with
  | nil => exact Iff.rfl
  | cons x xs ih =>
    show z ∈ insertDesc x (sortDesc xs) ↔ _
    rw [mem_insertDesc, ih, List.mem_cons]

theorem filter_take_isPre (p : SimEntry → Bool) (l : List SimEntry) (m : Nat) :
    (l.take m).filter p <+: l.filter p :=
  ⟨(l.drop m).filter p, by rw [← List.filter_append, List.take_append_drop]⟩

/-! ## Inversion of the search result -/

theorem find_ok_inv {env : SearchEnv} {d : String} {t : ℚ} {m n : Nat}
    {l : List SimEntry} (h : find_similar_notes env d t m = .ok n l) :
    l = (sortDesc (buildSimilarities env.score t env.notesInfoResult)).take m ∧
      n = l.length := by
  unfold find_similar_notes at h
  split at h
  · exact absurd h (by simp)
  · injection h with h1 h2
    subst h2
    exact ⟨rfl, h1.symm⟩

/-! ## Concrete evaluation environments -/

/-- A search environment whose deck query returns no note identifiers. -/
def envEmptyDeck : SearchEnv where
  apiKey := some "k"
  findNotesStatus := 200
  findNotesError := none
  findNotesResult := []
  notesInfoStatus := 200
  notesInfoError := none
  notesInfoResult := []
  queryEmbedOk := true
  score := fun _ => none

def sampleNote1 : NoteInfo := ⟨1, "Basic", [], [("Front", "apple pie"), ("Back", "dessert")]⟩

def sampleNote2 : NoteInfo := ⟨2, "Basic", [], [("Front", "  "), ("Back", "")]⟩

def sampleNote3 : NoteInfo := ⟨3, "Basic", [], [("Front", "banana"), ("Back", "bread")]⟩

def sampleNote4 : NoteInfo := ⟨4, "Basic", [], [("Front", "apple tart"), ("Back", "")]⟩

def sampleScore : String → Option ℚ := fun s =>
  if s = "apple pie dessert" then some 3
  else if s = "banana bread" then some 1
  else if s = "apple tart" then some 3
  else none

/-- A search environment over four notes, one of which has only
whitespace field values. -/
def sampleEnv : SearchEnv where
  apiKey := some "k"
  findNotesStatus := 200
  findNotesError := none
  findNotesResult := [1, 2, 3, 4]
  notesInfoStatus := 200
  notesInfoError := none
  notesInfoResult := [sampleNote1, sampleNote2, sampleNote3, sampleNote4]
  queryEmbedOk := true
  score := sampleScore

/-! ## Claim theorems about the similarity search -/

/-- C2 counterexample: on a deck whose identifier query returns an empty
list, find_similar_notes returns an error result (success False) with the
message No notes found in deck ..., not a success with found_count 0 as
the claim states. -/
theorem find_similar_empty_deck_counterexample :
    find_similar_notes envEmptyDeck "EmptyDeck" (7/10) 10 =
      .err "No notes found in deck EmptyDeck" ∧
    FsnResult.err "No notes found in deck EmptyDeck" ≠ FsnResult.ok 0 [] := by
  exact ⟨rfl, by simp⟩

/-- C2 amended: for every call to find_similar_notes in which the API key
is configured, the identifier query succeeds at transport level with no
application error, and the returned identifier list is empty (empty deck
or unknown deck name), the operation returns an error result with
success False and the message No notes found in deck given name, a hard
error rather than a success with found_count 0. -/
theorem find_similar_empty_deck_error (env : SearchEnv) (d : String) (t : ℚ) (m : Nat)
    (hk : env.apiKey.isSome = true) (hst : env.findNotesStatus = 200)
    (her : env.findNotesError = none) (hres : env.findNotesResult = []) :
    find_similar_notes env d t m = .err ("No notes found in deck " ++ d) := by
  obtain ⟨k, hkk⟩ := Option.isSome_iff_exists.mp hk
  simp [find_similar_notes, searchError, hkk, hst, her, hres]

/-- C2 witness: the amended theorem applied to a concrete empty-deck
environment. -/
theorem find_similar_empty_deck_error_witness :
    find_similar_notes envEmptyDeck "Demo" (7/10) 10 = .err "No notes found in deck Demo" :=
  find_similar_empty_deck_error envEmptyDeck "Demo" (7/10) 10 rfl rfl rfl rfl

/-- C5: every successful result list of the similarity search is sorted in
non-increasing order of similarity, and for every score value the entries
carrying that score form a prefix of the entries carrying that score in
the unsorted candidate list, i.e. ties keep their original retrieval
order (the sort is stable) and truncation only ever drops a suffix of a
tie group. -/
theorem find_similar_sorted_stable (env : SearchEnv) (d : String) (t : ℚ) (m n : Nat)
    (l : List SimEntry) (h : find_similar_notes env d t m = .ok n l) :
    l.Pairwise (fun a b => b.similarity ≤ a.similarity) ∧
    ∀ q : ℚ, l.filter (fun e => e.similarity = q) <+:
      (buildSimilarities env.score t env.notesInfoResult).filter
        (fun e => e.similarity = q) := by
  obtain ⟨hl, -⟩ := find_ok_inv h
  subst hl
  constructor
  · exact (sortDesc_pairwise _).sublist (List.take_sublist _ _)
  · intro q
    have hp := filter_take_isPre (fun e => decide (e.similarity = q))
      (sortDesc (buildSimilarities env.score t env.notesInfoResult)) m
    rwa [sortDesc_filter] at hp

/-- C5 witness: the sortedness and stability facts at a concrete search
whose two results tie at score 3. -/
theorem find_similar_sorted_stable_witness :
    ([⟨sampleNote1, 3, "apple pie dessert"⟩, ⟨sampleNote4, 3, "apple tart"⟩] :
        List SimEntry).Pairwise (fun a b => b.similarity ≤ a.similarity) ∧
    ([⟨sampleNote1, 3, "apple pie dessert"⟩, ⟨sampleNote4, 3, "apple tart"⟩] :
        List SimEntry).filter (fun e => e.similarity = 3) <+:
      (buildSimilarities sampleEnv.score 2 sampleEnv.notesInfoResult).filter
        (fun e => e.similarity = 3) := by
  have h := find_similar_sorted_stable sampleEnv "Demo" 2 10 2
    [⟨sampleNote1, 3, "apple pie dessert"⟩, ⟨sampleNote4, 3, "apple tart"⟩] rfl
  exact ⟨h.1, h.2 3⟩

/-- C6: every entry of a successful result list has similarity at least
the threshold (the comparison is inclusive), and when no candidate clears
the threshold the call still succeeds with found_count 0 and an empty
list rather than an error. -/
theorem find_similar_threshold_inclusive :
    (∀ (env : SearchEnv) (d : String) (t : ℚ) (m n : Nat) (l : List SimEntry),
      find_similar_notes env d t m = .ok n l → ∀ e ∈ l, t ≤ e.similarity) ∧
    (∀ (env : SearchEnv) (d : String) (t : ℚ) (m : Nat),
      searchError env d = none →
      buildSimilarities env.score t env.notesInfoResult = [] →
      find_similar_notes env d t m = .ok 0 []) := by
  constructor
  · intro env d t m n l h e he
    obtain ⟨hl, -⟩ := find_ok_inv h
    subst hl
    have h2 := mem_sortDesc.mp (List.take_subset _ _ he)
    obtain ⟨nn, -, hp⟩ := mem_buildSimilarities.mp h2
    exact (processNote_eq_some hp).1
  · intro env d t m hse hb
    simp [find_similar_notes, hse, hb, sortDesc]

/-- C6 witness: the inclusive threshold bound at a concrete result whose
score equals the threshold would still pass; here 2 le 3, and a threshold
of 9 that no candidate clears yields the explicit empty success. -/
theorem find_similar_threshold_inclusive_witness :
    ((2 : ℚ) ≤ (SimEntry.mk sampleNote1 3 "apple pie dessert").similarity) ∧
    find_similar_notes sampleEnv "Demo" 9 10 = .ok 0 [] := by
  constructor
  · exact find_similar_threshold_inclusive.1 sampleEnv "Demo" 2 10 2
      [⟨sampleNote1, 3, "apple pie dessert"⟩, ⟨sampleNote4, 3, "apple tart"⟩] rfl
      ⟨sampleNote1, 3, "apple pie dessert"⟩ (List.mem_cons_self _ _)
  · exact find_similar_threshold_inclusive.2 sampleEnv "Demo" 9 10 rfl rfl

/-- C9: a successful result reports found_count equal to the length of the
result list, which never exceeds max_results and never exceeds the number
of candidates that cleared the threshold. -/
theorem find_similar_result_bounds (env : SearchEnv) (d : String) (t : ℚ) (m n : Nat)
    (l : List SimEntry) (h : find_similar_notes env d t m = .ok n l) :
    n = l.length ∧ l.length ≤ m ∧
      l.length ≤ (buildSimilarities env.score t env.notesInfoResult).length := by
  obtain ⟨hl, hn⟩ := find_ok_inv h
  subst hl
  refine ⟨hn, List.length_take_le _ _, ?_⟩
  rw [List.length_take, length_sortDesc]
  exact min_le_right _ _

/-- C9 witness: the bounds at a concrete search returning two of four
candidates. -/
theorem find_similar_result_bounds_witness :
    (2 = ([⟨sampleNote1, 3, "apple pie dessert"⟩, ⟨sampleNote4, 3, "apple tart"⟩] :
        List SimEntry).length) ∧
    ([⟨sampleNote1, 3, "apple pie dessert"⟩, ⟨sampleNote4, 3, "apple tart"⟩] :
        List SimEntry).length ≤ 10 ∧
    ([⟨sampleNote1, 3, "apple pie dessert"⟩, ⟨sampleNote4, 3, "apple tart"⟩] :
        List SimEntry).length ≤
      (buildSimilarities sampleEnv.score 2 sampleEnv.notesInfoResult).length :=
  find_similar_result_bounds sampleEnv "Demo" 2 10 2
    [⟨sampleNote1, 3, "apple pie dessert"⟩, ⟨sampleNote4, 3, "apple tart"⟩] rfl

def sampleScoreAlt : String → Option ℚ := fun s =>
  if s = "" then some 100 else sampleScore s

/-- C7: the flattened text embedded for a note is the space-join of its
field values, in field order, keeping exactly the values with a
non-whitespace character and discarding field names; every text handed to
the per-candidate embedding call has content, the candidate scoring
depends only on the scores of those texts (so a whitespace-only candidate
causes no embedding call), and every returned entry carries the flattened
text of its note, which has content. -/
theorem find_similar_flatten_and_skip :
    (∀ fields : List (String × String),
      combinedText fields =
        String.intercalate " " ((fields.map Prod.snd).filter hasContent)) ∧
    (∀ (notes : List NoteInfo) (s : String), s ∈ embedCalls notes → hasContent s = true) ∧
    (∀ (notes : List NoteInfo) (t : ℚ) (s1 s2 : String → Option ℚ),
      (∀ s ∈ embedCalls notes, s1 s = s2 s) →
      buildSimilarities s1 t notes = buildSimilarities s2 t notes) ∧
    (∀ (env : SearchEnv) (d : String) (t : ℚ) (m n : Nat) (l : List SimEntry),
      find_similar_notes env d t m = .ok n l →
      ∀ e ∈ l, e.combined_text = combinedText e.note.fields ∧
        hasContent e.combined_text = true) := by
  refine ⟨combinedText_eq, fun _ _ => mem_embedCalls_hasContent,
    fun _ _ _ _ => buildSimilarities_congr, ?_⟩
  intro env d t m n l h e he
  obtain ⟨hl, -⟩ := find_ok_inv h
  subst hl
  have h2 := mem_sortDesc.mp (List.take_subset _ _ he)
  obtain ⟨nn, -, hp⟩ := mem_buildSimilarities.mp h2
  obtain ⟨-, hnote, htext, hne⟩ := processNote_eq_some hp
  exact ⟨by rw [htext, hnote], (pyStrip_ne_empty_iff _).mp hne⟩

/-! ## Lemmas about the field merge of update_note -/

theorem lookup_overlay_ne {k v name : String} (h : k ≠ name)
    (d : List (String × String)) :
    (d.map (fun p => if p.1 == k then (k, v) else p)).lookup name = d.lookup name := by
  induction d with
  | nil => rfl
  | cons a tail ih =>
    rcases a with ⟨ak, av⟩
    have ih2 : List.lookup name (List.map (fun p => if p.1 = k then (k, v) else p) tail) =
        List.lookup name tail := by simpa using ih
    by_cases hak : ak = k
    · have hn : (name == k) = false := beq_eq_false_iff_ne.mpr (Ne.symm h)
      have hn2 : (name == ak) = false := by rw [hak]; exact hn
      simp [List.lookup_cons, hak, hn, hn2, ih2]
    · cases hna : name == ak with
      | true => simp [List.lookup_cons, hak, hna]
      | false => simp [List.lookup_cons, hak, hna, ih2]

theorem lookup_append_ne {k v name : String} (h : k ≠ name)
    (d : List (String × String)) :
    (d ++ [(k, v)]).lookup name = d.lookup name := by
  induction d with
  | nil =>
    have hn : (name == k) = false := beq_eq_false_iff_ne.mpr (Ne.symm h)
    simp [List.lookup_cons, hn]
  | cons a tail ih =>
    rcases a with ⟨ak, av⟩
    simp [List.lookup_cons, ih]

theorem lookup_dictInsert_ne (d : List (String × String)) {k : String} (v : String)
    {name : String} (h : k ≠ name) :
    (dictInsert d k v).lookup name = d.lookup name := by
  unfold dictInsert
  split
  · exact lookup_overlay_ne h d
  · exact lookup_append_ne h d

theorem lookup_mergeFields_ne {newFields : List (String × String)} {name : String}
    (h : ∀ p ∈ newFields, p.1 ≠ name) :
    ∀ current, (mergeFields current newFields).lookup name = current.lookup name := by
  induction newFields with
  | nil => intro current; rfl
  | cons p rest ih =>
    intro current
    show (mergeFields (dictInsert current p.1 p.2) rest).lookup name = _
    rw [ih (fun q hq => h q (List.mem_cons_of_mem _ hq))]
    exact lookup_dictInsert_ne current p.2 (h p (List.mem_cons_self _ _))

/-- C3: when an update succeeds, the field mapping sent to the store
agrees with the current stored mapping on every field name the caller did
not mention, and the tags sent are the caller tags when supplied and the
current tags otherwise. -/
theorem update_note_merge (note_id : Nat) (fields : List (String × String))
    (tags : Option (List String)) (niStatus : Nat) (niError : Option String)
    (niResult : List (Option CurrentNote)) (updStatus : Nat) (updError : Option String)
    (cur : CurrentNote) (sent : SentNote) (ufs : List String)
    (hcur : niResult.head? = some (some cur))
    (h : update_note note_id fields tags niStatus niError niResult updStatus updError =
      .ok sent ufs) :
    (∀ name, (∀ p ∈ fields, p.1 ≠ name) →
      sent.fields.lookup name = cur.fields.lookup name) ∧
    sent.tags = tags.getD cur.tags := by
  unfold update_note at h
  split at h
  · exact absurd h (by simp)
  · split at h
    · exact absurd h (by simp)
    · split at h
      · rename_i current heq
        rw [hcur] at heq
        injection heq with heq
        injection heq with heq
        subst heq
        split at h
        · exact absurd h (by simp)
        · split at h
          · exact absurd h (by simp)
          · injection h with h1 h2
            subst h1
            exact ⟨fun name hname => lookup_mergeFields_ne hname cur.fields, rfl⟩
      · exact absurd h (by simp)

def curDemo : CurrentNote := ⟨[("Front", "f"), ("Back", "b")], ["t"]⟩

/-- C3 witness: updating only the Back field of a note that also has a
Front field leaves Front unchanged in the sent payload, and absent caller
tags keep the current tags. -/
theorem update_note_merge_witness :
    update_note 5 [("Back", "b2")] none 200 none [some curDemo] 200 none =
      .ok ⟨5, [("Front", "f"), ("Back", "b2")], ["t"]⟩ ["Back"] ∧
    (SentNote.mk 5 [("Front", "f"), ("Back", "b2")] ["t"]).fields.lookup "Front" =
      curDemo.fields.lookup "Front" ∧
    (SentNote.mk 5 [("Front", "f"), ("Back", "b2")] ["t"]).tags =
      Option.getD none curDemo.tags := by
  have h := update_note_merge 5 [("Back", "b2")] none 200 none [some curDemo] 200 none
    curDemo ⟨5, [("Front", "f"), ("Back", "b2")], ["t"]⟩ ["Back"] rfl rfl
  exact ⟨rfl, h.1 "Front" (by decide), h.2⟩

/-! ## Claim theorems about the batch operations -/

/-- An item of notes_list that the validation loop rejects: not a dict,
or missing the model_name or fields key. -/
def malformedNote : RawNote → Bool
  | .notDict => true
  | .dict mn fs _ => mn.isNone || fs.isNone

theorem buildAnkiNotes_error (deck : String) :
    ∀ {notes : List RawNote}, notes.any malformedNote = true →
      ∀ i, ∃ e, buildAnkiNotes deck notes i = .error e := by
  intro notes
  induction notes with
  | nil => intro h; simp at h
  | cons n rest ih =>
    intro h i
    cases n with
    | notDict => exact ⟨_, rfl⟩
    | dict mn fs ts =>
      cases mn with
      | none => exact ⟨_, rfl⟩
      | some m =>
        cases fs with
        | none => exact ⟨_, rfl⟩
        | some f =>
          have htail : rest.any malformedNote = true := by
            simpa [malformedNote] using h
          obtain ⟨e, he⟩ := ih htail (i + 1)
          refine ⟨e, ?_⟩
          show (match buildAnkiNotes deck rest (i + 1) with
            | Except.error e => (Except.error e : Except String (List AnkiNote))
            | Except.ok ns => Except.ok (⟨deck, m, f, ts.getD []⟩ :: ns)) = Except.error e
          rw [he]

def wfNote1 : RawNote := .dict (some "Basic") (some [("Front", "q1"), ("Back", "a1")]) none

def wfNote2 : RawNote := .dict (some "Basic") (some [("Front", "q2"), ("Back", "a2")]) none

def wfNote3 : RawNote := .dict (some "Basic") (some [("Front", "q3"), ("Back", "a3")]) none

def badNote : RawNote := .dict (some "Basic") none none

/-- C1 counterexample: with three well-formed items and one item missing
the fields key, create_notes_bulk returns a whole-batch error dict naming
the offending item, identically whatever the store would answer (the
store is never consulted): no per-item failure is recorded and no result
with total_attempted 4 and three successes is produced. -/
theorem create_bulk_item_validation_counterexample :
    create_notes_bulk "Deck" [wfNote1, wfNote2, wfNote3, badNote] 200 none
        [some 1, some 2, some 3, some 4] =
      .err "Note 4 missing required model_name or fields" ∧
    create_notes_bulk "Deck" [wfNote1, wfNote2, wfNote3, badNote] 500 (some "down") [] =
      .err "Note 4 missing required model_name or fields" :=
  ⟨rfl, rfl⟩

/-- C1 amended: whenever some item of a create_notes_bulk call is not a
dict or is missing the model_name or fields key, the whole call fails
with an error dict (success False), no per-item outcome is recorded for
any item, and the result is independent of the store response, i.e. the
Record Store is not invoked and no sibling item is applied. -/
theorem create_bulk_malformed_aborts (deck : String) (notes : List RawNote)
    (st st2 : Nat) (er er2 : Option String) (ids ids2 : List (Option Nat))
    (h : notes.any malformedNote = true) :
    (create_notes_bulk deck notes st er ids).isErr = true ∧
    create_notes_bulk deck notes st er ids = create_notes_bulk deck notes st2 er2 ids2 := by
  obtain ⟨e, he⟩ := buildAnkiNotes_error deck h 0
  have hne : notes.isEmpty = false := by
    cases notes with
    | nil => simp at h
    | cons a l => rfl
  simp [create_notes_bulk, hne, he, BulkCreateResult.isErr]

/-- C1 witness: the amended theorem at the concrete four-item batch. -/
theorem create_bulk_malformed_aborts_witness :
    (create_notes_bulk "Deck" [wfNote1, wfNote2, wfNote3, badNote] 200 none
        [some 1, some 2, some 3, some 4]).isErr = true ∧
    create_notes_bulk "Deck" [wfNote1, wfNote2, wfNote3, badNote] 200 none
        [some 1, some 2, some 3, some 4] =
      create_notes_bulk "Deck" [wfNote1, wfNote2, wfNote3, badNote] 404 (some "x") [none] :=
  create_bulk_malformed_aborts "Deck" [wfNote1, wfNote2, wfNote3, badNote] 200 404
    none (some "x") [some 1, some 2, some 3, some 4] [none] (by decide)

/-- C8: on a successful bulk create, the returned note_ids list is the
store response itself, the successful count is the number of non-null
identifiers in it and the failed count the number of nulls, so an item
counts as a success exactly when its positionally aligned identifier is
non-null, with no exception involved. -/
theorem create_bulk_null_id_counts (deck : String) (notes : List RawNote)
    (st : Nat) (er : Option String) (ids : List (Option Nat)) (t s f : Nat)
    (out : List (Option Nat))
    (h : create_notes_bulk deck notes st er ids = .ok t s f out) :
    out = ids ∧ s = (ids.filter Option.isSome).length ∧
      f = (ids.filter Option.isNone).length := by
  unfold create_notes_bulk at h
  split at h
  · exact absurd h (by simp)
  · split at h
    · exact absurd h (by simp)
    · split at h
      · exact absurd h (by simp)
      · split at h
        · exact absurd h (by simp)
        · injection h with h1 h2 h3 h4
          exact ⟨h4.symm, h2.symm, h3.symm⟩

/-- C8 witness: the count characterisation at a store response holding a
null in second position. -/
theorem create_bulk_null_id_counts_witness :
    ([some 1, none, some 3] : List (Option Nat)) = [some 1, none, some 3] ∧
    2 = (([some 1, none, some 3] : List (Option Nat)).filter Option.isSome).length ∧
    1 = (([some 1, none, some 3] : List (Option Nat)).filter Option.isNone).length :=
  create_bulk_null_id_counts "Deck" [wfNote1, wfNote2, wfNote3] 200 none
    [some 1, none, some 3] 3 2 1 [some 1, none, some 3] rfl

/-- C10: both batch operations reject an empty input list with an error
dict (success False) carrying the messages No notes provided and
No updates provided respectively, instead of returning an empty outcome
with total_attempted 0. -/
theorem bulk_empty_input_error (deck : String) (st : Nat) (er : Option String)
    (ids : List (Option Nat))
    (apply : Nat → Nat → List (String × String) → Option (List String) → ApplyOutcome) :
    create_notes_bulk deck [] st er ids = .err "No notes provided" ∧
    update_notes_bulk [] apply = .err "No updates provided" :=
  ⟨rfl, rfl⟩

/-! ## Lemmas for the batch counting and isolation invariants -/

theorem length_filter_isSome_add_isNone (ids : List (Option Nat)) :
    (ids.filter Option.isSome).length + (ids.filter Option.isNone).length = ids.length := by
  induction ids with
  | nil => rfl
  | cons a l ih => cases a <;> simp [List.filter_cons, ih] <;> omega

theorem outcomes_length
    (apply : Nat → Nat → List (String × String) → Option (List String) → ApplyOutcome)
    (us : List RawUpdate) : ∀ i0, (outcomes apply us i0).length = us.length := by
  induction us with
  | nil => intro i0; rfl
  | cons u rest ih => intro i0; simp [outcomes, ih]

theorem outcomes_partition_length (os : List ItemOutcome) :
    (os.filterMap succPart).length + (os.filterMap failPart).length = os.length := by
  induction os with
  | nil => rfl
  | cons o rest ih =>
    cases o <;> simp [List.filterMap_cons, succPart, failPart, ih] <;> omega

theorem outcomes_get_congr
    {apply1 apply2 : Nat → Nat → List (String × String) → Option (List String) →
      ApplyOutcome} {k : Nat}
    (hag : ∀ i, i ≠ k → ∀ id fs ts, apply1 i id fs ts = apply2 i id fs ts) :
    ∀ (us : List RawUpdate) (i0 j : Nat), i0 + j ≠ k →
      (outcomes apply1 us i0)[j]? = (outcomes apply2 us i0)[j]? := by
  intro us
  induction us with
  | nil => intro i0 j hj; rfl
  | cons u rest ih =>
    intro i0 j hj
    cases j with
    | zero =>
      have hi0 : i0 ≠ k := by omega
      simp only [outcomes, List.getElem?_cons_zero]
      congr 1
      cases u with
      | notDict => rfl
      | dict id? fs? ts? =>
        cases id? with
        | none => rfl
        | some id =>
          cases fs? with
          | none => rfl
          | some fs =>
            simp only [itemOutcome]
            rw [hag i0 hi0 id fs ts?]
    | succ j =>
      simp only [outcomes, List.getElem?_cons_succ]
      exact ih (i0 + 1) j (by omega)

/-- C4: on every batch result, successful_count plus failed_count equals
total_attempted (for create, granted the positional alignment of the
store response); the ordered outcome lists of update_notes_bulk are
exactly the partition of the per-item outcomes; and the outcome recorded
at a position j is unchanged by altering the store behaviour at any other
position k (per-item isolation).  For create, the recorded note_ids are
the store response verbatim, so positions other than k are likewise
untouched by a failure at k. -/
theorem batch_outcome_invariants :
    (∀ (deck : String) (notes : List RawNote) (st : Nat) (er : Option String)
        (ids : List (Option Nat)) (t s f : Nat) (out : List (Option Nat)),
      create_notes_bulk deck notes st er ids = .ok t s f out →
      ids.length = notes.length → s + f = t ∧ out = ids) ∧
    (∀ (updates : List RawUpdate)
        (apply : Nat → Nat → List (String × String) → Option (List String) →
          ApplyOutcome) (t s f : Nat) (ss : List UpdSuccess) (fs : List UpdFailure),
      update_notes_bulk updates apply = .ok t s f ss fs → s + f = t) ∧
    (∀ (updates : List RawUpdate)
        (apply : Nat → Nat → List (String × String) → Option (List String) →
          ApplyOutcome), updates ≠ [] →
      update_notes_bulk updates apply =
        .ok updates.length ((outcomes apply updates 0).filterMap succPart).length
          ((outcomes apply updates 0).filterMap failPart).length
          ((outcomes apply updates 0).filterMap succPart)
          ((outcomes apply updates 0).filterMap failPart)) ∧
    (∀ (apply1 apply2 : Nat → Nat → List (String × String) → Option (List String) →
        ApplyOutcome) (k : Nat),
      (∀ i, i ≠ k → ∀ id fs ts, apply1 i id fs ts = apply2 i id fs ts) →
      ∀ (updates : List RawUpdate) (j : Nat), j ≠ k →
        (outcomes apply1 updates 0)[j]? = (outcomes apply2 updates 0)[j]?) := by
  refine ⟨?_, ?_, ?_, ?_⟩
  · intro deck notes st er ids t s f out h hlen
    unfold create_notes_bulk at h
    split at h
    · exact absurd h (by simp)
    · split at h
      · exact absurd h (by simp)
      · split at h
        · exact absurd h (by simp)
        · split at h
          · exact absurd h (by simp)
          · injection h with h1 h2 h3 h4
            subst h1 h2 h3 h4
            exact ⟨by rw [length_filter_isSome_add_isNone, hlen], rfl⟩
  · intro updates apply t s f ss fs h
    unfold update_notes_bulk at h
    split at h
    · exact absurd h (by simp)
    · rename_i hne
      injection h with h1 h2 h3 h4 h5
      subst h1 h2 h3
      rw [outcomes_partition_length, outcomes_length]
  · intro updates apply h
    cases updates with
    | nil => exact absurd rfl h
    | cons u rest => rfl
  · intro apply1 apply2 k hag updates j hj
    exact outcomes_get_congr hag updates 0 j (by omega)

def upd1 : RawUpdate := .dict (some 11) (some [("Back", "x")]) none

def upd2 : RawUpdate := .dict (some 12) (some [("Back", "y")]) none

def upd3 : RawUpdate := .notDict

def applyOk : Nat → Nat → List (String × String) → Option (List String) → ApplyOutcome :=
  fun _ _ fs _ => .ok (fs.map Prod.fst)

def applyFailAt1 : Nat → Nat → List (String × String) → Option (List String) →
    ApplyOutcome :=
  fun i _ fs _ => if i = 1 then .fail "store error" else .ok (fs.map Prod.fst)

/-- C4 witness: the counting identity on a concrete create and a concrete
update with an injected failure at position 1, the structural equation of
update_notes_bulk, and the unchanged outcome at position 0 when the store
behaviour is altered at position 1 only. -/
theorem batch_outcome_invariants_witness :
    ((1 : Nat) + 1 = 2 ∧ ([some 1, none] : List (Option Nat)) = [some 1, none]) ∧
    (1 : Nat) + 2 = 3 ∧
    update_notes_bulk [upd1, upd2, upd3] applyOk =
      .ok ([upd1, upd2, upd3] : List RawUpdate).length
        ((outcomes applyOk [upd1, upd2, upd3] 0).filterMap succPart).length
        ((outcomes applyOk [upd1, upd2, upd3] 0).filterMap failPart).length
        ((outcomes applyOk [upd1, upd2, upd3] 0).filterMap succPart)
        ((outcomes applyOk [upd1, upd2, upd3] 0).filterMap failPart) ∧
    (outcomes applyOk [upd1, upd2, upd3] 0)[0]? =
      (outcomes applyFailAt1 [upd1, upd2, upd3] 0)[0]? :=
  ⟨batch_outcome_invariants.1 "Deck" [wfNote1, wfNote2] 200 none [some 1, none]
      2 1 1 [some 1, none] rfl rfl,
    batch_outcome_invariants.2.1 [upd1, upd2, upd3] applyFailAt1 3 1 2
      [⟨11, ["Back"]⟩]
      [⟨1, some 12, "store error", upd2⟩, ⟨2, none, "Update data is not a dictionary", upd3⟩]
      rfl,
    batch_outcome_invariants.2.2.1 [upd1, upd2, upd3] applyOk (by simp),
    batch_outcome_invariants.2.2.2 applyOk applyFailAt1 1
      (by intro i hi id fs ts; simp [applyOk, applyFailAt1, hi]) [upd1, upd2, upd3] 0
      (by omega)⟩

/-- C7 witness: the flattening equation on a mixed field mapping, the
content facts, and score-irrelevance outside the embedded texts, at
concrete inputs; the whitespace-only sampleNote2 triggers no embedding
call, so a score oracle altered on the empty string changes nothing. -/
theorem find_similar_flatten_and_skip_witness :
    (combinedText [("Front", "  "), ("Back", "x")] =
      String.intercalate " "
        (([("Front", "  "), ("Back", "x")].map Prod.snd).filter hasContent)) ∧
    hasContent "apple pie dessert" = true ∧
    buildSimilarities sampleScore 2 sampleEnv.notesInfoResult =
      buildSimilarities sampleScoreAlt 2 sampleEnv.notesInfoResult ∧
    ((SimEntry.mk sampleNote1 3 "apple pie dessert").combined_text =
        combinedText (SimEntry.mk sampleNote1 3 "apple pie dessert").note.fields ∧
      hasContent (SimEntry.mk sampleNote1 3 "apple pie dessert").combined_text = true) := by
  refine ⟨find_similar_flatten_and_skip.1 [("Front", "  "), ("Back", "x")],
    find_similar_flatten_and_skip.2.1 sampleEnv.notesInfoResult "apple pie dessert"
      (by decide),
    find_similar_flatten_and_skip.2.2.1 sampleEnv.notesInfoResult 2 sampleScore
      sampleScoreAlt (by decide),
    find_similar_flatten_and_skip.2.2.2 sampleEnv "Demo" 2 10 2
      [⟨sampleNote1, 3, "apple pie dessert"⟩, ⟨sampleNote4, 3, "apple tart"⟩] rfl
      ⟨sampleNote1, 3, "apple pie dessert"⟩ (List.mem_cons_self _ _)⟩
